import Mathlib

/-!
Verification development for ProTeX (Python version, `src/protex.py`), a
line-oriented converter from source-code documentation prologues to LaTeX.

The embedding below mirrors the source faithfully:

* every `print(...)` call of the Python program becomes one `String`
  appended to an output fragment list (the string is the payload of the
  call, newlines embedded in the Python literal are kept);
* the mutable `state` dictionary becomes the `DocState` structure, the
  parsed command-line options become `Opts`, the token dictionary of
  `get_language_tokens` becomes `Tokens`;
* the body of the `for line in f` loop of `process_file` (lines 625-864)
  becomes `process_line`; Python's `continue`-terminated `if` chain is
  transcribed as one linear `if .. else if ..` chain in the same order
  (a nested block such as the prologue-marker block, whose sub-cases fall
  through to the later checks when none matches, is linearized by
  conjoining the `state["prologue"]` guard onto each of its sub-cases,
  which preserves the control flow exactly);
* Python `line.split()` is `pySplit`, `a in b` on strings is `inStr`,
  `str.replace`/`str.strip` map to the corresponding `String` operations,
  and `template % args` on `%s`-templates is `pyFormat`.

Braces that are literal text in the emitted LaTeX are written with the
escapes \x7b and \x7d.
-/

namespace ProTeX

/-- Python `str.lstrip()`: leading whitespace removed. -/
def pyLStrip (s : String) : String :=
  ⟨s.toList.dropWhile Char.isWhitespace⟩

/-- Python `str.rstrip()`: trailing whitespace removed (this also covers
the preceding `rstrip("\n")` of the source, since the newline is
whitespace). -/
def pyRStrip (s : String) : String :=
  ⟨(s.toList.reverse.dropWhile Char.isWhitespace).reverse⟩

/-- Python `str.strip()`. -/
def pyStrip (s : String) : String :=
  pyLStrip (pyRStrip s)

/-- Python `str.split()` (whitespace split, empty pieces discarded). -/
def pySplit (s : String) : List String :=
  ((s.toList.splitOnP Char.isWhitespace).map (fun l => (⟨l⟩ : String))).filter
    (fun t => t ≠ "")

/-- Python `s.startswith(pre)`. -/
def pyStartsWith (s pre : String) : Bool :=
  pre.toList.isPrefixOf s.toList

/-- Python `s[n:]` character drop. -/
def pyDrop (s : String) (n : Nat) : String :=
  ⟨s.toList.drop n⟩

/-- `pat in s` on Python strings: `pat` occurs contiguously in `s`. -/
def isInfixB (pat : List Char) : List Char → Bool
  | [] => pat.isEmpty
  | c :: cs => pat.isPrefixOf (c :: cs) || isInfixB pat cs

def inStr (pat s : String) : Bool :=
  isInfixB pat.toList s.toList

/-- Python `s.split(sep)` for a non-empty separator string, by a fuel
recursion (the fuel `s.length` dominates the number of characters
consumed, each step consumes at least one). -/
def splitSepFuel (pat : List Char) : Nat → List Char → List Char → List (List Char)
  | 0, s, acc => [acc.reverse ++ s]
  | _ + 1, [], acc => [acc.reverse]
  | n + 1, c :: cs, acc =>
      if pat.isPrefixOf (c :: cs) then
        acc.reverse :: splitSepFuel pat n (cs.drop (pat.length - 1)) []
      else splitSepFuel pat n cs (c :: acc)

def pySplitSep (s pat : String) : List String :=
  if pat.toList.isEmpty then [s]
  else (splitSepFuel pat.toList s.toList.length s.toList []).map (fun l => (⟨l⟩ : String))

/-- Python `s.replace(pat, rep)` for a non-empty pattern, scanning left to
right without overlap, by the same fuel scheme. -/
def replaceFuel (pat rep : List Char) : Nat → List Char → List Char
  | 0, s => s
  | _ + 1, [] => []
  | n + 1, c :: cs =>
      if pat.isPrefixOf (c :: cs) then rep ++ replaceFuel pat rep n (cs.drop (pat.length - 1))
      else c :: replaceFuel pat rep n cs

def pyReplace (s pat rep : String) : String :=
  if pat.toList.isEmpty then s
  else ⟨replaceFuel pat.toList rep.toList s.toList.length s.toList⟩

/-- Interleaves the pieces of a `%s`-template with the arguments:
`pyFormat fmt args` is Python `fmt % tuple(args)` for templates whose only
conversion is `%s` and whose placeholder count matches `args.length`
(the only situations the program reaches). -/
def pyInterleave : List String → List String → String
  | [], _ => ""
  | [p], _ => p
  | p :: ps, [] => p ++ String.intercalate "%s" ps
  | p :: ps, a :: rest => p ++ a ++ pyInterleave ps rest

def pyFormat (fmt : String) (args : List String) : String :=
  pyInterleave (pySplitSep fmt "%s") args

/-- One entry of the `language_info` dictionary (src/protex.py lines 84-91). -/
structure LangInfo where
  name : String
  comment : String
  lang : String
deriving DecidableEq

/-- The centralized language mapping `language_info` (src/protex.py lines 84-91). -/
def language_info : List (String × LangInfo) :=
  [("F", ⟨"Fortran90", "!", "fortran"⟩),
   ("A", ⟨"Ada", "--", "ada"⟩),
   ("C", ⟨"C++", "//", "c"⟩),
   ("S", ⟨"Shell", "#", "bash"⟩),
   ("G", ⟨"GrADS", "*", "bash"⟩),
   ("P", ⟨"Python", "#", "python"⟩)]

/-- `get_language_info` (src/protex.py lines 93-151).  A raised
`ValueError` is modelled as `Except.error` carrying the message. -/
def get_language_info (code : String) (info_type : String) : Except String String :=
  match language_info.lookup code with
  | none => Except.error ("Invalid language code: " ++ code)
  | some info =>
      if info_type = "comment" then Except.ok info.comment
      else if info_type = "lang" then Except.ok info.lang
      else if info_type = "name" then Except.ok info.name
      else Except.error ("Invalid info_type: " ++ info_type)

/-- The token dictionary built by `get_language_tokens` (lines 156-186). -/
structure Tokens where
  comment : String
  bop : String
  eop : String
  boi : String
  eoi : String
  boc : String
  eoc : String
  boe : String
  eoe : String
  bor : String
  eor : String
  bopi : String
  eopi : String
  iiro : String
  cro : String
  program : String
deriving DecidableEq

/-- `get_language_tokens` (src/protex.py lines 156-186). -/
def get_language_tokens (lang : String) : Except String Tokens :=
  match get_language_info lang "comment" with
  | Except.error e => Except.error e
  | Except.ok symbol => Except.ok
      { comment := symbol
        bop := symbol ++ "BOP"
        eop := symbol ++ "EOP"
        boi := symbol ++ "BOI"
        eoi := symbol ++ "EOI"
        boc := symbol ++ "BOC"
        eoc := symbol ++ "EOC"
        boe := symbol ++ "BOE"
        eoe := symbol ++ "EOE"
        bor := symbol ++ "BOR"
        eor := symbol ++ "EOR"
        bopi := symbol ++ "BOPI"
        eopi := symbol ++ "EOPI"
        iiro := symbol ++ "IIROUTINE:"
        cro := symbol ++ "CROUTINE:"
        program := symbol ++ "PROGRAM:" }

/-- The global `state` dictionary of `main` (src/protex.py lines 922-941). -/
structure DocState where
  intro : Bool
  prologue : Bool
  first : Bool
  source : Bool
  verb : Bool
  tpage : Bool
  begdoc : Bool
  not_first : Bool
  have_name : Bool
  have_desc : Bool
  have_intf : Bool
  have_hist : Bool
  name_is : String
  title : String
  author : String
  affiliation : String
  doc_date : String
  resource : Bool
deriving DecidableEq

/-- The initial state built in `main`. -/
def initState : DocState :=
  { intro := false, prologue := false, first := true, source := false
    verb := false, tpage := false, begdoc := false, not_first := false
    have_name := false, have_desc := false, have_intf := false
    have_hist := false, name_is := "UNKNOWN", title := "", author := ""
    affiliation := "", doc_date := "", resource := false }

/-- The command-line options consumed by the processing core
(src/protex.py lines 882-900); `nolatex` is the `--x` switch
("No LaTeX mode (print !DESCRIPTION in verbatim)"). -/
structure Opts where
  bare : Bool
  g : Bool
  M : Bool
  n : Bool
  l : Bool
  s : Bool
  nolatex : Bool
  f : Bool
  internal : Bool
  keys : List String
deriving DecidableEq

/-- The default `--keys` list (src/protex.py lines 891-900). -/
def defaultKeys : List String :=
  ["!INTERFACE:", "!USES:", "!PUBLIC TYPES:", "!PRIVATE TYPES:",
   "!PUBLIC MEMBER FUNCTIONS:", "!PRIVATE MEMBER FUNCTIONS:",
   "!PUBLIC DATA MEMBERS:", "!PARAMETERS:", "!ARGUMENTS:",
   "!DEFINED PARAMETERS:", "!INPUT PARAMETERS:", "!INPUT/OUTPUT PARAMETERS:",
   "!OUTPUT PARAMETERS:", "!RETURN VALUE:", "!REVISION HISTORY:",
   "!BUGS:", "!SEE ALSO:", "!SYSTEM ROUTINES:", "!FILES USED:",
   "!REMARKS:", "!TO DO:", "!CALLING SEQUENCE:", "!AUTHOR:",
   "!CALLED FROM:", "!LOCAL VARIABLES:"]

/-- All option switches off, default keyword list (the parser defaults). -/
def baseOpts : Opts :=
  { bare := false, g := false, M := false, n := false, l := false
    s := false, nolatex := false, f := false, internal := false
    keys := defaultKeys }

/-- `get_format` (src/protex.py lines 382-406): drops the
`" (Source File: %s)"` part of a template when source-file info is
suppressed. -/
def get_format (fmt : String) (remove_source : Bool) : String :=
  if remove_source then pyReplace fmt " (Source File: %s)" "" else fmt

/-- `do_beg` (src/protex.py lines 286-309). -/
def do_beg (st : DocState) (bare : Bool) : DocState × List String :=
  if bare then (st, [])
  else if st.begdoc then (st, [])
  else
    let t := if st.tpage then
        ["\\title\x7b" ++ st.title ++ "\x7d",
         "\\author\x7b\x7b\\sc " ++ st.author ++ "\x7d\\\\ \x7b\\em " ++
           st.affiliation ++ "\x7d\x7d",
         "\\date\x7b" ++ st.doc_date ++ "\x7d"]
      else []
    let m := if st.tpage then ["\\maketitle"] else []
    ({st with begdoc := true},
     t ++ ["\\begin\x7bdocument\x7d"] ++ m ++ ["\\tableofcontents", "\\newpage"])

/-- `do_boc` (src/protex.py lines 311-322). -/
def do_boc (st : DocState) (lang_name : String) : DocState × List String :=
  ({st with first := false, prologue := false, source := true, verb := true},
   ["\n %------------------ START CODE ------------------%",
    "\\begin\x7bminted\x7d[breaklines,breakafter=-+*/&]\x7b" ++ lang_name ++ "\x7d"])

/-- `do_eoc` (src/protex.py lines 325-336). -/
def do_eoc (st : DocState) : DocState × List String :=
  if st.verb then
    ({st with verb := false, source := false},
     ["\\end\x7bminted\x7d", "\n %------------------ END CODE ------------------%"])
  else
    ({st with source := false},
     ["\n %------------------ END CODE ------------------%"])

/-- `set_missing` (src/protex.py lines 340-350). -/
def set_missing (st : DocState) : DocState :=
  {st with have_name := false, have_desc := false, have_intf := false,
           have_hist := false, name_is := "UNKNOWN"}

/-- `process_resource_line` (src/protex.py lines 263-280). -/
def process_resource_line (line : String) : List String :=
  let parts := (pySplitSep line ",").map pyStrip
  if 4 ≤ parts.length then
    ["\\makebox[1.0in][l]\x7b" ++ parts.getD 0 "" ++ "\x7d & " ++
     "\\makebox[3.5in][l]\x7b" ++ parts.getD 1 "" ++ "\x7d & " ++
     "\\makebox[1.0in][l]\x7b" ++ parts.getD 2 "" ++ "\x7d & " ++
     "\\makebox[1.0in][l]\x7b" ++ parts.getD 3 "" ++ "\x7d \\\\",
     "\\hline"]
  else [line]

/-- `process_generic` (src/protex.py lines 470-507). -/
def process_generic (fields : List String) (latex_template : String)
    (file_basename : String) (opts : Opts) (st : DocState) :
    DocState × List String :=
  let tmpl := get_format latex_template opts.f
  let content := pyReplace (String.intercalate " " fields) "_" "\\_"
  let np := if opts.n ∧ st.not_first then ["\\newpage"] else []
  let body := if ¬ opts.f then pyFormat tmpl [content, file_basename]
              else pyFormat tmpl [content]
  ({st with have_name := true, not_first := true}, np ++ [body])

/-- `process_internal` (src/protex.py lines 510-535). -/
def process_internal (fields : List String) (_file_basename : String)
    (_opts : Opts) (st : DocState) : DocState × List String :=
  let content := pyReplace (String.intercalate " " fields) "_" "\\_"
  let words := pySplit content
  let short_label := if words.length > 1 then words.getD 1 "" else ""
  ({st with have_name := true},
   ["\\subsubsection [" ++ short_label ++ "]\x7b" ++ content ++ "\x7d\n"])

/-- `process_overloaded` (src/protex.py lines 538-563). -/
def process_overloaded (fields : List String) (_file_basename : String)
    (_opts : Opts) (st : DocState) : DocState × List String :=
  let content := pyReplace (String.intercalate " " fields) "_" "\\_"
  let words := pySplit content
  let short_label := if words.length > 1 then String.intercalate " " (words.drop 1) else ""
  ({st with have_name := true},
   ["\\subsubsection [" ++ short_label ++ "]\x7b" ++ content ++ "\x7d\n"])

/-- `process_contained` (src/protex.py lines 566-591). -/
def process_contained (fields : List String) (_file_basename : String)
    (_opts : Opts) (st : DocState) : DocState × List String :=
  let content := pyReplace (String.intercalate " " fields) "_" "\\_"
  let words := pySplit content
  let short_label := if words.length > 1 then words.getD 1 "" else ""
  ({st with have_name := true},
   ["\\subsubsection [" ++ short_label ++ "]\x7b" ++ content ++ "\x7d\n"])

/-- Leading/trailing whitespace stripped, as computed at the top of the
line loop (`raw_line` right-stripped, then left-stripped into `line`). -/
def strippedLine (input : String) : String :=
  pyLStrip (pyRStrip input)

/-- `fields = line.split(maxsplit=9999)` of the line loop. -/
def lineFields (input : String) : List String :=
  pySplit (strippedLine input)

/-- The marker index `mi`: 1 when the first token is the bare comment
symbol, else 0 (src/protex.py lines 630-633). -/
def markerIndex (toks : Tokens) (input : String) : Nat :=
  if (lineFields input).head? = some toks.comment then 1 else 0

/-- `fields[mi]`, the token inspected for structural markers. -/
def markerTok (toks : Tokens) (input : String) : String :=
  (lineFields input).getD (markerIndex toks input) ""

/-- `marker = fields[1] if len(fields) > 1 else fields[0]` used for the
prologue-processor dispatch (src/protex.py line 767). -/
def prologueMarker (input : String) : String :=
  if (lineFields input).length > 1 then (lineFields input).getD 1 ""
  else (lineFields input).getD 0 ""

/-- The remaining fields handed to a prologue processor after the pops of
src/protex.py lines 769-771. -/
def prologueRest (toks : Tokens) (input : String) : List String :=
  if markerIndex toks input = 1 then (lineFields input).drop 2
  else (lineFields input).drop 1

/-- The test of src/protex.py line 802 deciding between an emphasized and
a plain field label. -/
def emphLine (line : String) : Bool :=
  ["USES", "INPUT", "OUTPUT", "PARAMETERS", "VALUE", "ARGUMENTS"].any
    (fun x => inStr x line)

/-- The `!BOP` handler body (src/protex.py lines 722-739), also reused
verbatim by the non-internal `!BOPI` branch (lines 744-760).  `first` is
not written by `do_eoc` or `do_beg`, so reading `st.first` for the
separator choice matches the Python read of `state["first"]` at line 728. -/
def prologue_begin (opts : Opts) (st : DocState) : DocState × List String :=
  let r1 := if st.source then do_eoc st else (st, [])
  let r2 := do_beg r1.1 opts.bare
  let sep :=
    if ¬ st.first then ["\n\\mbox\x7b\x7d\\hrulefill\\"]
    else if ¬ opts.bare ∧ ¬ (opts.g ∨ opts.M) then
      ["\\section\x7bRoutine/Function Prologues\x7d \\label\x7bapp:ProLogues\x7d"]
    else []
  (set_missing {r2.1 with first := false, prologue := true, verb := false, source := false},
   r1.2 ++ r2.2 ++ sep)

/-- One iteration of the `for line in f` loop of `process_file`
(src/protex.py lines 625-864): consumes one input line, returns the new
state and the list of printed fragments.  The branch order is exactly the
order of the Python `if`/`continue` chain; the sub-cases of the
`if state["prologue"]` block are linearized by conjoining the prologue
guard (their fall-through behaviour is preserved because every later
check appears after them in this chain, unguarded). -/
def process_line (toks : Tokens) (lang_name : String) (file_basename : String)
    (opts : Opts) (st : DocState) (input : String) : DocState × List String :=
  let raw := pyRStrip input
  let line := strippedLine input
  let fields := lineFields input
  let mi := markerIndex toks input
  let mk := markerTok toks input
  if fields.length ≤ mi then (st, [])
  else if st.resource then
    if mk = toks.eor then ({st with resource := false}, [])
    else (st, process_resource_line line)
  else if mk = "!QUOTE:" then
    (st, [String.intercalate " " (fields.drop (mi + 1))])
  else if mk = toks.boi then ({st with intro := true}, [])
  else if st.intro ∧ fields.length > mi + 1 ∧ fields.getD (mi + 1) "" = "!TITLE:" then
    ({st with title := String.intercalate " " (fields.drop (mi + 1)), tpage := true}, [])
  else if st.intro ∧ fields.length > mi + 1 ∧ fields.getD (mi + 1) "" = "!AUTHORS:" then
    ({st with author := String.intercalate " " (fields.drop (mi + 1)), tpage := true}, [])
  else if st.intro ∧ fields.length > mi + 1 ∧ fields.getD (mi + 1) "" = "!AFFILIATION:" then
    ({st with affiliation := String.intercalate " " (fields.drop (mi + 1)), tpage := true}, [])
  else if st.intro ∧ fields.length > mi + 1 ∧ fields.getD (mi + 1) "" = "!DATE:" then
    ({st with doc_date := String.intercalate " " (fields.drop (mi + 1)), tpage := true}, [])
  else if st.intro ∧ fields.length > mi + 1 ∧ fields.getD (mi + 1) "" = "!INTRODUCTION:" then
    let r := do_beg st opts.bare
    (r.1, r.2 ++ [" %..............................................",
                  "\\section\x7b" ++ String.intercalate " " (fields.drop (mi + 1)) ++ "\x7d"])
  else if mk = toks.eoi then
    ({st with intro := false},
     ["\n %/////////////////////////////////////////////////////////////", "\\newpage"])
  else if mk = toks.bor then
    ({st with resource := true},
     ["\\begin\x7bcenter\x7d",
      "\x7b\\bf RESOURCES:\x7d\\\\",
      "\\begin\x7btabular\x7d\x7b|l|l|l|l|\x7d",
      "\\hline",
      "\\textbf\x7bName\x7d & \\textbf\x7bDescription\x7d & \\textbf\x7bUnits\x7d & \\textbf\x7bDefault\x7d \\\\",
      "\\hline",
      "\\end\x7btabular\x7d",
      "\\end\x7bcenter\x7d"])
  else if mk = toks.bop then prologue_begin opts st
  else if mk = toks.bopi then
    if opts.internal then ({st with prologue := false}, [])
    else prologue_begin opts st
  else if st.prologue ∧ prologueMarker input = "!MODULE:" then
    process_generic (prologueRest toks input)
      (get_format "\\subsection\x7bFortran: Module Interface %s (Source File: %s)\x7d\n" opts.f)
      file_basename opts st
  else if st.prologue ∧ prologueMarker input = "!PROGRAM:" then
    process_generic (prologueRest toks input)
      (get_format "\\subsection\x7bFortran: Main Program %s (Source File: %s)\x7d\n" opts.f)
      file_basename opts st
  else if st.prologue ∧ prologueMarker input = "!ROUTINE:" then
    process_generic (prologueRest toks input)
      (get_format "\\subsubsection\x7b%s (Source File: %s)\x7d\n" opts.f)
      file_basename opts st
  else if st.prologue ∧ prologueMarker input = "!FUNCTION:" then
    process_generic (prologueRest toks input)
      "\\subsubsection\x7b%s (Source File: %s)\x7d\n"
      file_basename opts st
  else if st.prologue ∧ (prologueMarker input = "!IROUTINE:" ∨ prologueMarker input = "!IFUNCTION:") then
    process_internal (prologueRest toks input) file_basename opts st
  else if st.prologue ∧ prologueMarker input = "!IIROUTINE:" then
    process_overloaded (prologueRest toks input) file_basename opts st
  else if st.prologue ∧ prologueMarker input = "!CROUTINE:" then
    process_contained (prologueRest toks input) file_basename opts st
  else if st.prologue ∧ inStr "!DESCRIPTION:" line then
    let st1 := if st.verb then {st with verb := false} else st
    let c := if st.verb then
        ["\\end\x7bminted\x7d", "\x7b\\sf DESCRIPTION:\\\\ \x7d", ""]
      else []
    if opts.nolatex then
      ({st1 with verb := true, have_desc := true},
       c ++ ["\\begin\x7bminted\x7d[breaklines]\x7b" ++ lang_name ++ "\x7d"])
    else
      let parts := pySplit line
      let start := if parts.getD 0 "" = "!" then 1 else 0
      ({st1 with have_desc := true},
       c ++ [String.intercalate " " (parts.drop (start + 1))])
  else if st.prologue ∧ (opts.keys.find? (fun k => inStr k line)).isSome then
    let key := (opts.keys.find? (fun k => inStr k line)).getD ""
    let c := if st.verb then ["\\end\x7bminted\x7d"] else ["\n\\bigskip"]
    let lab := if emphLine line then "\x7b\\em " ++ pyDrop key 1 ++ "\x7d"
               else "\x7b\\sf " ++ pyDrop key 1 ++ "\x7d"
    ({st with verb := true},
     c ++ [lab, "\\begin\x7bminted\x7d[breaklines]\x7b" ++ lang_name ++ "\x7d"])
  else if st.prologue ∧ (mk = toks.eop ∨ mk = toks.eopi) then
    if st.verb then
      ({st with verb := false, prologue := false}, ["\\end\x7bminted\x7d"])
    else ({st with prologue := false}, [])
  else if mk = toks.boc then
    if opts.s then ({st with prologue := false}, [])
    else do_boc st lang_name
  else if mk = toks.eoc then do_eoc st
  else if mk = toks.boe then
    let r1 := if st.source then do_eoc st else (st, [])
    ({r1.1 with first := false, prologue := true, verb := false, source := false},
     r1.2 ++ ["\n %/////////////////////////////////////////////////////////////"])
  else if mk = toks.eoe then
    if st.verb then
      ({st with verb := false, prologue := false}, ["\\end\x7bminted\x7d"])
    else ({st with prologue := false}, [])
  else if st.prologue ∨ st.intro then
    let out := if pyStartsWith line toks.comment then pyDrop line toks.comment.length else line
    (st, [out])
  else if st.source then (st, [raw])
  else (st, [])

/-- Folds `process_line` over the lines of one file. -/
def process_lines (toks : Tokens) (lang_name : String) (file_basename : String)
    (opts : Opts) (st : DocState) : List String → DocState × List String
  | [] => (st, [])
  | l :: ls =>
      let r := process_line toks lang_name file_basename opts st l
      let rest := process_lines toks lang_name file_basename opts r.1 ls
      (rest.1, r.2 ++ rest.2)

/-- `process_file` (src/protex.py lines 594-869): the `\markboth` header,
the line loop, the final empty print and the end-of-file force close.
`fbase` stands for `os.path.basename(filename)` (or `"Standard Input"`),
`fdate` for the `datetime.now()` stamp; both are inputs here. -/
def process_file (toks : Tokens) (lang_name : String) (opts : Opts)
    (fbase fdate : String) (st : DocState) (lines : List String) :
    DocState × List String :=
  let fb := pyReplace fbase "_" "\\_"
  let hdr := if opts.g ∨ opts.M then []
             else ["\n\\markboth\x7bLeft\x7d\x7bSource File: " ++ fb ++
                   ",  Date: " ++ fdate ++ "\x7d\n"]
  let r := process_lines toks lang_name fb opts st lines
  let tl := if r.1.source then do_eoc r.1 else (r.1, [])
  (tl.1, hdr ++ r.2 ++ [""] ++ tl.2)

/-- The per-file loop of `main` (src/protex.py lines 950-955) for a run in
which the language and options stay fixed: the single `state` is threaded
through every file.  Each file is `(fbase, fdate, lines)`. -/
def process_run (toks : Tokens) (lang_name : String) (opts : Opts) :
    DocState → List (String × String × List String) → DocState × List String
  | st, [] => (st, [])
  | st, (fb, fd, ls) :: rest =>
      let r := process_file toks lang_name opts fb fd st ls
      let rr := process_run toks lang_name opts r.1 rest
      (rr.1, r.2 ++ rr.2)

/-- The token set for the default language profile F (Fortran90). -/
def fortranTokens : Tokens :=
  { comment := "!", bop := "!BOP", eop := "!EOP", boi := "!BOI", eoi := "!EOI"
    boc := "!BOC", eoc := "!EOC", boe := "!BOE", eoe := "!EOE", bor := "!BOR"
    eor := "!EOR", bopi := "!BOPI", eopi := "!EOPI", iiro := "!IIROUTINE:"
    cro := "!CROUTINE:", program := "!PROGRAM:" }

theorem fortranTokens_eq : get_language_tokens "F" = Except.ok fortranTokens := rfl

/-- The structural markers recognized outside a prologue for the F
profile (quote, introduction, resource, prologue, internal prologue,
code and example delimiters). -/
def structuralMarkersF : List String :=
  ["!QUOTE:", "!BOI", "!EOI", "!BOR", "!BOP", "!BOPI", "!BOC", "!EOC", "!BOE", "!EOE"]

/-- A line whose marker token is none of the structural markers produces
no output and no state change when no region (introduction, prologue,
source, resource table) is open: the final fallthrough of the line loop
drops it. -/
theorem plain_dropped (toks : Tokens) (lang_name fb : String) (opts : Opts)
    (st : DocState) (input : String) (hi : st.intro = false)
    (hp : st.prologue = false) (hs : st.source = false) (hr : st.resource = false)
    (hm : markerTok toks input ∉ ["!QUOTE:", toks.boi, toks.eoi, toks.bor, toks.bop,
      toks.bopi, toks.boc, toks.eoc, toks.boe, toks.eoe]) :
    process_line toks lang_name fb opts st input = (st, []) := by
  simp only [List.mem_cons, List.not_mem_nil, or_false, not_or] at hm
  obtain ⟨q1, q2, q3, q4, q5, q6, q7, q8, q9, q10⟩ := hm
  by_cases h0 : (lineFields input).length ≤ markerIndex toks input
  · simp only [process_line]
    rw [if_pos h0]
  · simp only [process_line]
    rw [if_neg h0, if_neg (by simp [hr]), if_neg q1, if_neg q2,
        if_neg (by simp [hi]), if_neg (by simp [hi]), if_neg (by simp [hi]),
        if_neg (by simp [hi]), if_neg (by simp [hi]), if_neg q3, if_neg q4,
        if_neg q5, if_neg q6, if_neg (by simp [hp]), if_neg (by simp [hp]),
        if_neg (by simp [hp]), if_neg (by simp [hp]), if_neg (by simp [hp]),
        if_neg (by simp [hp]), if_neg (by simp [hp]), if_neg (by simp [hp]),
        if_neg (by simp [hp]), if_neg (by simp [hp]), if_neg q7, if_neg q8,
        if_neg q9, if_neg q10, if_neg (by simp [hp, hi]), if_neg (by simp [hs])]

/-- `plain_dropped` lifted to a whole list of lines. -/
theorem plain_lines_dropped (toks : Tokens) (lang_name fb : String) (opts : Opts)
    (st : DocState) (lines : List String) (hi : st.intro = false)
    (hp : st.prologue = false) (hs : st.source = false) (hr : st.resource = false)
    (hm : ∀ l ∈ lines, markerTok toks l ∉ ["!QUOTE:", toks.boi, toks.eoi, toks.bor,
      toks.bop, toks.bopi, toks.boc, toks.eoc, toks.boe, toks.eoe]) :
    process_lines toks lang_name fb opts st lines = (st, []) := by
  induction lines with
  | nil => rfl
  | cons l ls ih =>
      have h1 := plain_dropped toks lang_name fb opts st l hi hp hs hr
        (hm l (by simp))
      have h2 := ih (fun x hx => hm x (by simp [hx]))
      simp only [process_lines, h1, h2]
      rfl

/-- C4: for every supported language code the resolver returns, for every
marker role, exactly the language's comment symbol concatenated with the
role's fixed suffix; every unsupported code fails with the
unknown-language error. -/
theorem c4_marker_vocabulary :
    (∀ code, code ∈ ["F", "A", "C", "S", "G", "P"] →
      ∃ t : Tokens, get_language_tokens code = Except.ok t ∧
        get_language_info code "comment" = Except.ok t.comment ∧
        t.bop = t.comment ++ "BOP" ∧ t.eop = t.comment ++ "EOP" ∧
        t.boi = t.comment ++ "BOI" ∧ t.eoi = t.comment ++ "EOI" ∧
        t.boc = t.comment ++ "BOC" ∧ t.eoc = t.comment ++ "EOC" ∧
        t.boe = t.comment ++ "BOE" ∧ t.eoe = t.comment ++ "EOE" ∧
        t.bor = t.comment ++ "BOR" ∧ t.eor = t.comment ++ "EOR" ∧
        t.bopi = t.comment ++ "BOPI" ∧ t.eopi = t.comment ++ "EOPI" ∧
        t.iiro = t.comment ++ "IIROUTINE:" ∧ t.cro = t.comment ++ "CROUTINE:" ∧
        t.program = t.comment ++ "PROGRAM:") ∧
    (∀ code, code ∉ ["F", "A", "C", "S", "G", "P"] →
      get_language_tokens code = Except.error ("Invalid language code: " ++ code)) := by
  constructor
  · intro code hc
    fin_cases hc <;>
      exact ⟨_, rfl, rfl, rfl, rfl, rfl, rfl, rfl, rfl, rfl, rfl, rfl, rfl, rfl,
        rfl, rfl, rfl, rfl⟩
  · intro code hc
    simp only [List.mem_cons, List.not_mem_nil, or_false, not_or] at hc
    obtain ⟨h1, h2, h3, h4, h5, h6⟩ := hc
    have hl : language_info.lookup code = none := by
      simp [language_info, List.lookup, beq_eq_false_iff_ne.mpr h1,
        beq_eq_false_iff_ne.mpr h2, beq_eq_false_iff_ne.mpr h3,
        beq_eq_false_iff_ne.mpr h4, beq_eq_false_iff_ne.mpr h5,
        beq_eq_false_iff_ne.mpr h6]
    unfold get_language_tokens get_language_info
    rw [hl]

theorem c4_witness :
    (∃ t : Tokens, get_language_tokens "F" = Except.ok t ∧
      get_language_info "F" "comment" = Except.ok t.comment ∧
      t.bop = t.comment ++ "BOP" ∧ t.eop = t.comment ++ "EOP" ∧
      t.boi = t.comment ++ "BOI" ∧ t.eoi = t.comment ++ "EOI" ∧
      t.boc = t.comment ++ "BOC" ∧ t.eoc = t.comment ++ "EOC" ∧
      t.boe = t.comment ++ "BOE" ∧ t.eoe = t.comment ++ "EOE" ∧
      t.bor = t.comment ++ "BOR" ∧ t.eor = t.comment ++ "EOR" ∧
      t.bopi = t.comment ++ "BOPI" ∧ t.eopi = t.comment ++ "EOPI" ∧
      t.iiro = t.comment ++ "IIROUTINE:" ∧ t.cro = t.comment ++ "CROUTINE:" ∧
      t.program = t.comment ++ "PROGRAM:") ∧
    get_language_tokens "Z" = Except.error ("Invalid language code: " ++ "Z") :=
  ⟨c4_marker_vocabulary.1 "F" (by decide), c4_marker_vocabulary.2 "Z" (by decide)⟩

/-- C1 (code bug): with the source-filename-suppression flag set, a
`!FUNCTION:` prologue line does NOT keep the source filename: although
`get_prologue_processors` hands the raw two-placeholder template to the
function marker (the commented "Maintains source file reference"
asymmetry), `process_generic` re-applies `get_format` with `opts.f`,
which strips the `" (Source File: %s)"` part again, so the emitted
subsubsection heading for `! !FUNCTION: foo` is exactly
`\subsubsection{foo}` with no filename in it. -/
theorem c1_function_filename_suppressed :
    process_line fortranTokens "fortran" "m\\_time.f90" {baseOpts with f := true}
        {initState with prologue := true} "! !FUNCTION: foo" =
      ({initState with prologue := true, have_name := true, not_first := true},
       ["\\subsubsection\x7bfoo\x7d\n"]) ∧
    inStr "m\\_time.f90" "\\subsubsection\x7bfoo\x7d\n" = false := ⟨rfl, rfl⟩

/-- C2 counterexample: with no-LaTeX mode OFF, a `!DESCRIPTION:` line in
a prologue with an open verbatim block does NOT reopen a verbatim block
(the claim says it does): the body is emitted as running text and the
verbatim flag ends up false. -/
theorem c2_claim_false :
    (process_line fortranTokens "fortran" "f.f90" baseOpts
        {initState with prologue := true, verb := true} "! !DESCRIPTION: hello world").1.verb = false ∧
    (process_line fortranTokens "fortran" "f.f90" baseOpts
        {initState with prologue := true, verb := true} "! !DESCRIPTION: hello world").2 =
      ["\\end\x7bminted\x7d", "\x7b\\sf DESCRIPTION:\\\\ \x7d", "", "hello world"] ∧
    "\\begin\x7bminted\x7d[breaklines]\x7bfortran\x7d" ∉
      (process_line fortranTokens "fortran" "f.f90" baseOpts
        {initState with prologue := true, verb := true} "! !DESCRIPTION: hello world").2 :=
  ⟨rfl, rfl, by decide⟩

/-- C2 as amended: a description line closes any open verbatim block
(emitting the description label when one was open); then, when no-LaTeX
mode is ON, it reopens a verbatim block for the body, and when no-LaTeX
mode is OFF, the content after the marker token is emitted as running
text; afterwards the verbatim flag equals the no-LaTeX flag. -/
theorem c2_description_modes (fb : String) (opts : Opts) (st : DocState)
    (hp : st.prologue = true) (hr : st.resource = false) (hi : st.intro = false) :
    (process_line fortranTokens "fortran" fb opts st "! !DESCRIPTION: hello world").1.verb = opts.nolatex ∧
    (process_line fortranTokens "fortran" fb opts st "! !DESCRIPTION: hello world").1.have_desc = true ∧
    (process_line fortranTokens "fortran" fb opts st "! !DESCRIPTION: hello world").2 =
      (if st.verb then ["\\end\x7bminted\x7d", "\x7b\\sf DESCRIPTION:\\\\ \x7d", ""] else []) ++
      (if opts.nolatex then ["\\begin\x7bminted\x7d[breaklines]\x7bfortran\x7d"]
       else ["hello world"]) := by
  obtain ⟨i, p, f1, s1, v, tp, bd, nf, m1, m2, m3, m4, ni, ti, au, af, dd, r⟩ := st
  obtain ⟨ob, og, oM, onn, ol, os, ox, off, oi, okeys⟩ := opts
  simp only at hp hr hi
  subst hp; subst hr; subst hi
  cases v <;> cases ox <;> exact ⟨rfl, rfl, rfl⟩

theorem c2_description_modes_witness :
    (process_line fortranTokens "fortran" "f.f90" baseOpts
      {initState with prologue := true, verb := true} "! !DESCRIPTION: hello world").1.verb =
        baseOpts.nolatex ∧
    (process_line fortranTokens "fortran" "f.f90" baseOpts
      {initState with prologue := true, verb := true} "! !DESCRIPTION: hello world").1.have_desc = true ∧
    (process_line fortranTokens "fortran" "f.f90" baseOpts
      {initState with prologue := true, verb := true} "! !DESCRIPTION: hello world").2 =
      (if ({initState with prologue := true, verb := true} : DocState).verb then
        ["\\end\x7bminted\x7d", "\x7b\\sf DESCRIPTION:\\\\ \x7d", ""] else []) ++
      (if baseOpts.nolatex then ["\\begin\x7bminted\x7d[breaklines]\x7bfortran\x7d"]
       else ["hello world"]) :=
  c2_description_modes "f.f90" baseOpts {initState with prologue := true, verb := true}
    rfl rfl rfl

/-- C5 counterexample: a code-end marker line processed while no code or
verbatim region is open is not a no-op on output: the END CODE banner
comment (a fragment every close also emits) is emitted again. -/
theorem c5_claim_false :
    (process_line fortranTokens "fortran" "f.f90" baseOpts initState "!EOC").2 =
      ["\n %------------------ END CODE ------------------%"] ∧
    (process_line fortranTokens "fortran" "f.f90" baseOpts initState "!EOC").2 ≠ [] :=
  ⟨rfl, by decide⟩

/-- C5 as amended: closing an already-closed region emits no duplicate
verbatim-end delimiter: a code-end line with the verbatim flag off emits
only the END CODE banner (no `\end{minted}`), and a prologue-end line
with no prologue, introduction, source, or resource region open emits
nothing at all. -/
theorem c5_idempotent_close :
    (∀ (fb : String) (opts : Opts) (st : DocState), opts.keys = defaultKeys →
      st.resource = false → st.verb = false →
      process_line fortranTokens "fortran" fb opts st "!EOC" =
        ({st with source := false}, ["\n %------------------ END CODE ------------------%"])) ∧
    (∀ (fb : String) (opts : Opts) (st : DocState), st.resource = false →
      st.prologue = false → st.intro = false → st.source = false →
      process_line fortranTokens "fortran" fb opts st "!EOP" = (st, [])) := by
  constructor
  · intro fb opts st hk hr hv
    obtain ⟨i, p, f1, s1, v, tp, bd, nf, m1, m2, m3, m4, ni, ti, au, af, dd, r⟩ := st
    obtain ⟨ob, og, oM, onn, ol, os, ox, off, oi, okeys⟩ := opts
    simp only at hk hr hv
    subst hk; subst hr; subst hv
    cases i <;> cases p <;> exact rfl
  · intro fb opts st hr hp hi hs
    obtain ⟨i, p, f1, s1, v, tp, bd, nf, m1, m2, m3, m4, ni, ti, au, af, dd, r⟩ := st
    simp only at hr hp hi hs
    subst hr; subst hp; subst hi; subst hs
    exact rfl

theorem c5_idempotent_close_witness :
    process_line fortranTokens "fortran" "f.f90" baseOpts initState "!EOC" =
      ({initState with source := false},
       ["\n %------------------ END CODE ------------------%"]) ∧
    process_line fortranTokens "fortran" "f.f90" baseOpts initState "!EOP" =
      (initState, []) :=
  ⟨c5_idempotent_close.1 "f.f90" baseOpts initState rfl rfl rfl,
   c5_idempotent_close.2 "f.f90" baseOpts initState rfl rfl rfl rfl⟩

/-- C6 counterexample: in resource-table mode, the non-empty line `"!"`
(a bare comment symbol, which is not the resource-end marker) is NOT
treated as a comma-separated row: it is skipped with no output, whereas
row treatment would have passed it through (second conjunct). -/
theorem c6_claim_false :
    process_line fortranTokens "fortran" "f.f90" baseOpts
        {initState with resource := true} "!" =
      ({initState with resource := true}, []) ∧
    process_resource_line "!" = ["!"] := ⟨rfl, rfl⟩

/-- C6 as amended: while resource-table mode is active, every line that
still has a token at the marker position is either the resource-end
marker (which only clears the resource flag) or is rendered as a literal
comma-separated row: at least 4 comma-separated fields give a formatted
table row plus a rule, fewer fields pass the stripped line through
unchanged; no other marker has any effect. -/
theorem c6_resource_rows (toks : Tokens) (lang_name fb : String) (opts : Opts)
    (st : DocState) (input : String) (hr : st.resource = true)
    (hne : markerIndex toks input < (lineFields input).length) :
    (markerTok toks input = toks.eor →
      process_line toks lang_name fb opts st input = ({st with resource := false}, [])) ∧
    (markerTok toks input ≠ toks.eor →
      process_line toks lang_name fb opts st input =
        (st, if 4 ≤ ((pySplitSep (strippedLine input) ",").map pyStrip).length then
          ["\\makebox[1.0in][l]\x7b" ++ ((pySplitSep (strippedLine input) ",").map pyStrip).getD 0 "" ++ "\x7d & " ++
           "\\makebox[3.5in][l]\x7b" ++ ((pySplitSep (strippedLine input) ",").map pyStrip).getD 1 "" ++ "\x7d & " ++
           "\\makebox[1.0in][l]\x7b" ++ ((pySplitSep (strippedLine input) ",").map pyStrip).getD 2 "" ++ "\x7d & " ++
           "\\makebox[1.0in][l]\x7b" ++ ((pySplitSep (strippedLine input) ",").map pyStrip).getD 3 "" ++ "\x7d \\\\",
           "\\hline"]
        else [strippedLine input])) := by
  obtain ⟨i, p, f1, s1, v, tp, bd, nf, m1, m2, m3, m4, ni, ti, au, af, dd, r⟩ := st
  simp only at hr
  subst hr
  constructor
  · intro he
    simp only [process_line]
    rw [if_neg (by omega), if_pos (by trivial), if_pos he]
  · intro he
    simp only [process_line]
    rw [if_neg (by omega), if_pos (by trivial), if_neg he]
    simp only [process_resource_line]

theorem c6_resource_rows_witness :
    (process_line fortranTokens "fortran" "f.f90" baseOpts
        {initState with resource := true} "a, b" =
      ({initState with resource := true},
        if 4 ≤ ((pySplitSep (strippedLine "a, b") ",").map pyStrip).length then
          ["\\makebox[1.0in][l]\x7b" ++ ((pySplitSep (strippedLine "a, b") ",").map pyStrip).getD 0 "" ++ "\x7d & " ++
           "\\makebox[3.5in][l]\x7b" ++ ((pySplitSep (strippedLine "a, b") ",").map pyStrip).getD 1 "" ++ "\x7d & " ++
           "\\makebox[1.0in][l]\x7b" ++ ((pySplitSep (strippedLine "a, b") ",").map pyStrip).getD 2 "" ++ "\x7d & " ++
           "\\makebox[1.0in][l]\x7b" ++ ((pySplitSep (strippedLine "a, b") ",").map pyStrip).getD 3 "" ++ "\x7d \\\\",
           "\\hline"]
        else [strippedLine "a, b"])) :=
  (c6_resource_rows fortranTokens "fortran" "f.f90" baseOpts
    {initState with resource := true} "a, b" rfl (by decide)).2 (by decide)

/-- C10: while the resource flag is set, processing any input line leaves
every other Document State field unchanged: the new state is the old one
with at most the resource flag changed, and the resource flag can only
have been cleared by the resource-end marker. -/
theorem c10_resource_frame (toks : Tokens) (lang_name fb : String)
    (opts : Opts) (st : DocState) (input : String) (hr : st.resource = true) :
    ∃ b : Bool, (process_line toks lang_name fb opts st input).1 =
      {st with resource := b} ∧
    (b = false → markerTok toks input = toks.eor) := by
  obtain ⟨i, p, f1, s1, v, tp, bd, nf, m1, m2, m3, m4, ni, ti, au, af, dd, r⟩ := st
  simp only at hr
  subst hr
  simp only [process_line, eq_self_iff_true, if_true]
  split_ifs with h1 h3
  · exact ⟨true, rfl, by intro hf; exact absurd hf (by decide)⟩
  · exact ⟨false, rfl, fun _ => h3⟩
  · exact ⟨true, rfl, by intro hf; exact absurd hf (by decide)⟩

theorem c10_resource_frame_witness :
    ∃ b : Bool, (process_line fortranTokens "fortran" "f.f90" baseOpts
      {initState with resource := true} "!BOP").1 =
        {({initState with resource := true} : DocState) with resource := b} ∧
    (b = false → markerTok fortranTokens "!BOP" = fortranTokens.eor) :=
  c10_resource_frame fortranTokens "fortran" "f.f90" baseOpts
    {initState with resource := true} "!BOP" rfl

/-- Splitting a line list for `process_lines`. -/
theorem process_lines_append (toks : Tokens) (lang_name fb : String) (opts : Opts)
    (st : DocState) (as bs : List String) :
    process_lines toks lang_name fb opts st (as ++ bs) =
      ((process_lines toks lang_name fb opts
          (process_lines toks lang_name fb opts st as).1 bs).1,
       (process_lines toks lang_name fb opts st as).2 ++
         (process_lines toks lang_name fb opts
           (process_lines toks lang_name fb opts st as).1 bs).2) := by
  induction as generalizing st with
  | nil => simp [process_lines]
  | cons a as ih => simp [process_lines, ih]

/-- C3 counterexample: with internal mode enabled, the content between
`!BOPI` and `!EOPI` is NOT passed through to the output as ordinary
text: the whole region (including the body line `"! some doc"`)
produces no output at all. -/
theorem c3_claim_false :
    process_lines fortranTokens "fortran" "f.f90" {baseOpts with internal := true}
      initState ["!BOPI", "! some doc", "!EOPI"] =
    ({initState with prologue := false}, []) := rfl

/-- C3 as amended: with internal mode enabled, a `!BOPI` line emits no
prologue-region fragments (it only clears the prologue flag), and the
lines up to and including `!EOPI` produce no output at all when no other
region is open — they are dropped by the ordinary fallthrough, not
passed through. -/
theorem c3_internal_skip (fb : String) (opts : Opts) (st : DocState)
    (body : List String) (hint : opts.internal = true) (hi : st.intro = false)
    (hs : st.source = false) (hr : st.resource = false)
    (hb : ∀ l ∈ body, markerTok fortranTokens l ∉ structuralMarkersF) :
    process_lines fortranTokens "fortran" fb opts st ("!BOPI" :: (body ++ ["!EOPI"])) =
      ({st with prologue := false}, []) := by
  obtain ⟨i, p, f1, s1, v, tp, bd, nf, m1, m2, m3, m4, ni, ti, au, af, dd, r⟩ := st
  obtain ⟨ob, og, oM, onn, ol, os, ox, off, oi, okeys⟩ := opts
  simp only at hint hi hs hr
  subst hint; subst hi; subst hs; subst hr
  have h1 : process_line fortranTokens "fortran" fb
      ⟨ob, og, oM, onn, ol, os, ox, off, true, okeys⟩
      ⟨false, p, f1, false, v, tp, bd, nf, m1, m2, m3, m4, ni, ti, au, af, dd, false⟩
      "!BOPI" =
      (⟨false, false, f1, false, v, tp, bd, nf, m1, m2, m3, m4, ni, ti, au, af, dd, false⟩, []) := rfl
  have h2 : process_lines fortranTokens "fortran" fb
      ⟨ob, og, oM, onn, ol, os, ox, off, true, okeys⟩
      ⟨false, false, f1, false, v, tp, bd, nf, m1, m2, m3, m4, ni, ti, au, af, dd, false⟩
      (body ++ ["!EOPI"]) =
      (⟨false, false, f1, false, v, tp, bd, nf, m1, m2, m3, m4, ni, ti, au, af, dd, false⟩, []) := by
    refine plain_lines_dropped _ _ _ _ _ _ rfl rfl rfl rfl ?_
    intro l hl
    rcases List.mem_append.mp hl with h | h
    · exact hb l h
    · simp only [List.mem_singleton] at h
      subst h
      decide
  simp only [process_lines, h1, h2]
  rfl

theorem c3_internal_skip_witness :
    process_lines fortranTokens "fortran" "f.f90" {baseOpts with internal := true}
      initState ("!BOPI" :: (["! some doc", "text line"] ++ ["!EOPI"])) =
      ({initState with prologue := false}, []) :=
  c3_internal_skip "f.f90" {baseOpts with internal := true} initState
    ["! some doc", "text line"] rfl rfl rfl rfl (by decide)

/-- C8: with shut-up mode enabled, a `!BOC` line only closes prologue
mode (no fragment is emitted, no verbatim region opens), the non-marker
source lines that follow produce no output at all, and the closing
`!EOC` emits only the END CODE banner: the source lines between the
markers never appear in the output. -/
theorem c8_shutup_code_suppressed (fb : String) (opts : Opts) (st : DocState)
    (body : List String) (hsh : opts.s = true) (hk : opts.keys = defaultKeys)
    (hi : st.intro = false) (hs : st.source = false) (hr : st.resource = false)
    (hv : st.verb = false)
    (hb : ∀ l ∈ body, markerTok fortranTokens l ∉ structuralMarkersF) :
    process_lines fortranTokens "fortran" fb opts st ("!BOC" :: (body ++ ["!EOC"])) =
      ({st with prologue := false},
       ["\n %------------------ END CODE ------------------%"]) := by
  obtain ⟨i, p, f1, s1, v, tp, bd, nf, m1, m2, m3, m4, ni, ti, au, af, dd, r⟩ := st
  obtain ⟨ob, og, oM, onn, ol, os, ox, off, oi, okeys⟩ := opts
  simp only at hsh hk hi hs hr hv
  subst hsh; subst hk; subst hi; subst hs; subst hr; subst hv
  have h1 : process_line fortranTokens "fortran" fb
      ⟨ob, og, oM, onn, ol, true, ox, off, oi, defaultKeys⟩
      ⟨false, p, f1, false, false, tp, bd, nf, m1, m2, m3, m4, ni, ti, au, af, dd, false⟩
      "!BOC" =
      (⟨false, false, f1, false, false, tp, bd, nf, m1, m2, m3, m4, ni, ti, au, af, dd, false⟩, []) := by
    cases p <;> exact rfl
  have h2 : process_lines fortranTokens "fortran" fb
      ⟨ob, og, oM, onn, ol, true, ox, off, oi, defaultKeys⟩
      ⟨false, false, f1, false, false, tp, bd, nf, m1, m2, m3, m4, ni, ti, au, af, dd, false⟩
      (body ++ ["!EOC"]) =
      (⟨false, false, f1, false, false, tp, bd, nf, m1, m2, m3, m4, ni, ti, au, af, dd, false⟩,
       ["\n %------------------ END CODE ------------------%"]) := by
    rw [process_lines_append]
    rw [plain_lines_dropped _ _ _ _ _ body rfl rfl rfl rfl hb]
    exact rfl
  simp only [process_lines, h1, h2]
  rfl

/-- C7 counterexample: `!INTERFACE:` is one of the claim's
"argument/parameter/interface/value/uses-style keys", yet its label is
emitted as a plain `{\sf ...}` label, not emphasized: the emphasis test
checks the line for the substrings USES/INPUT/OUTPUT/PARAMETERS/VALUE/
ARGUMENTS, none of which occurs in an interface line. -/
theorem c7_claim_false :
    (process_line fortranTokens "fortran" "f.f90" baseOpts
        {initState with prologue := true} "! !INTERFACE:").2 =
      ["\n\\bigskip", "\x7b\\sf INTERFACE:\x7d",
       "\\begin\x7bminted\x7d[breaklines]\x7bfortran\x7d"] ∧
    "\x7b\\em INTERFACE:\x7d" ∉
      (process_line fortranTokens "fortran" "f.f90" baseOpts
        {initState with prologue := true} "! !INTERFACE:").2 :=
  ⟨rfl, by decide⟩

/-- C7 as amended: inside an open prologue, a line containing a
configured keyword marker as a substring — tested in configured list
order, the first match winning (`List.find?`) — closes any open verbatim
block (and emits a vertical skip instead when none is open), emits the
keyword's label rendered as emphasized text when the LINE contains one
of the substrings USES, INPUT, OUTPUT, PARAMETERS, VALUE, ARGUMENTS
(`emphLine`; interface-style keys therefore get a plain label) and as a
plain label otherwise, and opens a new verbatim block for the field
body. -/
theorem c7_keyword_dispatch (fb : String) (opts : Opts) (st : DocState)
    (input key : String)
    (hp : st.prologue = true) (hr : st.resource = false) (hi : st.intro = false)
    (hne : markerIndex fortranTokens input < (lineFields input).length)
    (hq : markerTok fortranTokens input ∉
      ["!QUOTE:", fortranTokens.boi, fortranTokens.eoi, fortranTokens.bor,
       fortranTokens.bop, fortranTokens.bopi])
    (hm : prologueMarker input ∉ ["!MODULE:", "!PROGRAM:", "!ROUTINE:", "!FUNCTION:",
      "!IROUTINE:", "!IFUNCTION:", "!IIROUTINE:", "!CROUTINE:"])
    (hd : inStr "!DESCRIPTION:" (strippedLine input) = false)
    (hk : opts.keys.find? (fun k => inStr k (strippedLine input)) = some key) :
    process_line fortranTokens "fortran" fb opts st input =
      ({st with verb := true},
       (if st.verb then ["\\end\x7bminted\x7d"] else ["\n\\bigskip"]) ++
       [(if emphLine (strippedLine input) then "\x7b\\em " ++ pyDrop key 1 ++ "\x7d"
         else "\x7b\\sf " ++ pyDrop key 1 ++ "\x7d"),
        "\\begin\x7bminted\x7d[breaklines]\x7bfortran\x7d"]) := by
  simp only [List.mem_cons, List.not_mem_nil, or_false, not_or] at hq hm
  obtain ⟨q1, q2, q3, q4, q5, q6⟩ := hq
  obtain ⟨n1, n2, n3, n4, n5, n6, n7, n8⟩ := hm
  simp only [process_line]
  rw [if_neg (by omega), if_neg (by simp [hr]), if_neg q1, if_neg q2,
      if_neg (by simp [hi]), if_neg (by simp [hi]), if_neg (by simp [hi]),
      if_neg (by simp [hi]), if_neg (by simp [hi]), if_neg q3, if_neg q4,
      if_neg q5, if_neg q6,
      if_neg (fun hc => n1 hc.2), if_neg (fun hc => n2 hc.2),
      if_neg (fun hc => n3 hc.2), if_neg (fun hc => n4 hc.2),
      if_neg (fun hc => hc.2.elim n5 n6), if_neg (fun hc => n7 hc.2),
      if_neg (fun hc => n8 hc.2), if_neg (fun hc => by simp [hd] at hc),
      if_pos ⟨hp, by rw [hk]; rfl⟩]
  simp only [hk, Option.getD_some]
  rfl

theorem c7_keyword_dispatch_witness :
    process_line fortranTokens "fortran" "f.f90" baseOpts
        {initState with prologue := true} "! !INTERFACE:" =
      ({({initState with prologue := true} : DocState) with verb := true},
       (if ({initState with prologue := true} : DocState).verb then
          ["\\end\x7bminted\x7d"] else ["\n\\bigskip"]) ++
       [(if emphLine (strippedLine "! !INTERFACE:") then
           "\x7b\\em " ++ pyDrop "!INTERFACE:" 1 ++ "\x7d"
         else "\x7b\\sf " ++ pyDrop "!INTERFACE:" 1 ++ "\x7d"),
        "\\begin\x7bminted\x7d[breaklines]\x7bfortran\x7d"]) :=
  c7_keyword_dispatch "f.f90" baseOpts {initState with prologue := true}
    "! !INTERFACE:" "!INTERFACE:" rfl rfl rfl (by decide) (by decide) (by decide)
    rfl rfl

/-- `do_beg` is a no-op once the document has begun. -/
theorem do_beg_noop (st : DocState) (b : Bool) (h : st.begdoc = true) :
    do_beg st b = (st, []) := by
  unfold do_beg
  split_ifs <;> simp_all

/-- `do_eoc` never changes the document-begun flag. -/
theorem do_eoc_begdoc (st : DocState) : ((do_eoc st).1).begdoc = st.begdoc := by
  unfold do_eoc
  split <;> rfl

theorem ite_pair_begdoc (c : Prop) [Decidable c] (a b : DocState × List String)
    (ha : (a.1).begdoc = true) (hb : (b.1).begdoc = true) :
    (((if c then a else b) : DocState × List String).1).begdoc = true := by
  split
  · exact ha
  · exact hb

theorem ite_state_begdoc (c : Prop) [Decidable c] (a b : DocState)
    (ha : a.begdoc = true) (hb : b.begdoc = true) :
    ((if c then a else b) : DocState).begdoc = true := by
  split
  · exact ha
  · exact hb

/-- No line transition ever clears the document-begun flag. -/
theorem process_line_begdoc (toks : Tokens) (lang_name fb : String) (opts : Opts)
    (st : DocState) (input : String) (h : st.begdoc = true) :
    ((process_line toks lang_name fb opts st input).1).begdoc = true := by
  simp only [process_line]
  repeat'
    first
    | apply ite_pair_begdoc
    | apply ite_state_begdoc
    | exact h
    | exact rfl

theorem process_lines_begdoc (toks : Tokens) (lang_name fb : String) (opts : Opts)
    (st : DocState) (lines : List String) (h : st.begdoc = true) :
    ((process_lines toks lang_name fb opts st lines).1).begdoc = true := by
  induction lines generalizing st with
  | nil => exact h
  | cons l ls ih =>
      simp only [process_lines]
      exact ih _ (process_line_begdoc _ _ _ _ _ _ h)

theorem process_file_begdoc (toks : Tokens) (lang_name : String) (opts : Opts)
    (fbase fdate : String) (st : DocState) (lines : List String)
    (h : st.begdoc = true) :
    ((process_file toks lang_name opts fbase fdate st lines).1).begdoc = true := by
  simp only [process_file]
  repeat'
    first
    | apply ite_pair_begdoc
    | exact (do_eoc_begdoc _).trans (process_lines_begdoc _ _ _ _ _ _ h)
    | exact process_lines_begdoc _ _ _ _ _ _ h

theorem process_run_begdoc (toks : Tokens) (lang_name : String) (opts : Opts)
    (st : DocState) (files : List (String × String × List String))
    (h : st.begdoc = true) :
    ((process_run toks lang_name opts st files).1).begdoc = true := by
  induction files generalizing st with
  | nil => exact h
  | cons f fs ih =>
      obtain ⟨fb1, fd1, ls1⟩ := f
      simp only [process_run]
      exact ih _ (process_file_begdoc _ _ _ _ _ _ _ h)

/-- C9: the document-begun flag is a run-wide invariant: once set,
`do_beg` is a no-op, the flag stays set across every later line and file
of the run, and the prologue-begin (`!BOP`, `!BOPI`) and introduction
triggers emit only their separator/close fragments — no second document
preamble (`\begin{document}`, title commands, `\maketitle`,
`\tableofcontents`) appears in their output. -/
theorem c9_begdoc_invariant :
    (∀ (st : DocState) (b : Bool), st.begdoc = true → do_beg st b = (st, [])) ∧
    (∀ (lang_name : String) (opts : Opts) (st : DocState)
        (files : List (String × String × List String)), st.begdoc = true →
      ((process_run fortranTokens lang_name opts st files).1).begdoc = true) ∧
    (∀ (fb : String) (opts : Opts) (st : DocState), st.begdoc = true →
      st.resource = false →
      (process_line fortranTokens "fortran" fb opts st "!BOP").2 =
        (if st.source then
          (if st.verb then
            ["\\end\x7bminted\x7d", "\n %------------------ END CODE ------------------%"]
           else ["\n %------------------ END CODE ------------------%"]) else []) ++
        (if ¬ st.first then ["\n\\mbox\x7b\x7d\\hrulefill\\"]
         else if ¬ opts.bare ∧ ¬ (opts.g ∨ opts.M) then
           ["\\section\x7bRoutine/Function Prologues\x7d \\label\x7bapp:ProLogues\x7d"]
         else [])) ∧
    (∀ (fb : String) (opts : Opts) (st : DocState), st.begdoc = true →
      st.resource = false →
      (process_line fortranTokens "fortran" fb opts st "!BOPI").2 =
        (if opts.internal then [] else
          (if st.source then
            (if st.verb then
              ["\\end\x7bminted\x7d", "\n %------------------ END CODE ------------------%"]
             else ["\n %------------------ END CODE ------------------%"]) else []) ++
          (if ¬ st.first then ["\n\\mbox\x7b\x7d\\hrulefill\\"]
           else if ¬ opts.bare ∧ ¬ (opts.g ∨ opts.M) then
             ["\\section\x7bRoutine/Function Prologues\x7d \\label\x7bapp:ProLogues\x7d"]
           else []))) ∧
    (∀ (fb : String) (opts : Opts) (st : DocState), st.begdoc = true →
      st.resource = false → st.intro = true →
      (process_line fortranTokens "fortran" fb opts st "x !INTRODUCTION: Overview").2 =
        [" %..............................................",
         "\\section\x7b!INTRODUCTION: Overview\x7d"]) := by
  refine ⟨do_beg_noop, process_run_begdoc fortranTokens, ?_, ?_, ?_⟩
  · intro fb opts st hb hr
    obtain ⟨i, p, f1, s1, v, tp, bd, nf, m1, m2, m3, m4, ni, ti, au, af, dd, r⟩ := st
    obtain ⟨ob, og, oM, onn, ol, os, ox, off, oi, okeys⟩ := opts
    simp only at hb hr
    subst hb; subst hr
    cases i <;> cases s1 <;> cases v <;> cases f1 <;> cases ob <;> cases og <;> cases oM <;>
      exact rfl
  · intro fb opts st hb hr
    obtain ⟨i, p, f1, s1, v, tp, bd, nf, m1, m2, m3, m4, ni, ti, au, af, dd, r⟩ := st
    obtain ⟨ob, og, oM, onn, ol, os, ox, off, oi, okeys⟩ := opts
    simp only at hb hr
    subst hb; subst hr
    cases oi
    · cases i <;> cases s1 <;> cases v <;> cases f1 <;> cases ob <;> cases og <;> cases oM <;>
        exact rfl
    · cases i <;> exact rfl
  · intro fb opts st hb hr hi
    obtain ⟨i, p, f1, s1, v, tp, bd, nf, m1, m2, m3, m4, ni, ti, au, af, dd, r⟩ := st
    obtain ⟨ob, og, oM, onn, ol, os, ox, off, oi, okeys⟩ := opts
    simp only at hb hr hi
    subst hb; subst hr; subst hi
    cases ob <;> exact rfl

theorem c9_begdoc_invariant_witness :
    do_beg {initState with begdoc := true} false = ({initState with begdoc := true}, []) ∧
    ((process_run fortranTokens "fortran" baseOpts {initState with begdoc := true}
        [("a.f90", "d1", ["!BOP"]), ("b.f90", "d2", ["!BOP"])]).1).begdoc = true ∧
    (process_line fortranTokens "fortran" "f.f90" baseOpts
        {initState with begdoc := true} "!BOP").2 =
      (if ({initState with begdoc := true} : DocState).source then
        (if ({initState with begdoc := true} : DocState).verb then
          ["\\end\x7bminted\x7d", "\n %------------------ END CODE ------------------%"]
         else ["\n %------------------ END CODE ------------------%"]) else []) ++
      (if ¬ ({initState with begdoc := true} : DocState).first then
        ["\n\\mbox\x7b\x7d\\hrulefill\\"]
       else if ¬ baseOpts.bare ∧ ¬ (baseOpts.g ∨ baseOpts.M) then
         ["\\section\x7bRoutine/Function Prologues\x7d \\label\x7bapp:ProLogues\x7d"]
       else []) ∧
    (process_line fortranTokens "fortran" "f.f90" {baseOpts with internal := true}
        {initState with begdoc := true} "!BOPI").2 =
      (if ({baseOpts with internal := true} : Opts).internal then [] else
        (if ({initState with begdoc := true} : DocState).source then
          (if ({initState with begdoc := true} : DocState).verb then
            ["\\end\x7bminted\x7d", "\n %------------------ END CODE ------------------%"]
           else ["\n %------------------ END CODE ------------------%"]) else []) ++
        (if ¬ ({initState with begdoc := true} : DocState).first then
          ["\n\\mbox\x7b\x7d\\hrulefill\\"]
         else if ¬ ({baseOpts with internal := true} : Opts).bare ∧
             ¬ (({baseOpts with internal := true} : Opts).g ∨
                ({baseOpts with internal := true} : Opts).M) then
           ["\\section\x7bRoutine/Function Prologues\x7d \\label\x7bapp:ProLogues\x7d"]
         else [])) ∧
    (process_line fortranTokens "fortran" "f.f90" baseOpts
        {initState with begdoc := true, intro := true} "x !INTRODUCTION: Overview").2 =
      [" %..............................................",
       "\\section\x7b!INTRODUCTION: Overview\x7d"] :=
  ⟨c9_begdoc_invariant.1 _ _ rfl,
   c9_begdoc_invariant.2.1 _ _ _ _ rfl,
   c9_begdoc_invariant.2.2.1 _ _ _ rfl rfl,
   c9_begdoc_invariant.2.2.2.1 _ _ _ rfl rfl,
   c9_begdoc_invariant.2.2.2.2 _ _ _ rfl rfl rfl⟩

theorem c8_shutup_witness :
    process_lines fortranTokens "fortran" "f.f90" {baseOpts with s := true}
      {initState with prologue := true} ("!BOC" :: (["  integer :: i", "  i = 1"] ++ ["!EOC"])) =
      ({({initState with prologue := true} : DocState) with prologue := false},
       ["\n %------------------ END CODE ------------------%"]) :=
  c8_shutup_code_suppressed "f.f90" {baseOpts with s := true}
    {initState with prologue := true} ["  integer :: i", "  i = 1"]
    rfl rfl rfl rfl rfl rfl (by decide)

end ProTeX
